import Mathlib

/-!
Verification of the resumable incremental importer in
src/Workspace/btc_data_importer.py (class BTCDataImporter). The embedding
models timestamps and prices as rationals (Python ints and floats on the
paths in question are exact decimal values), the database as an explicit
list of rows, and the two external effects (the upstream HTTP feed and the
success of a database call) as explicit parameters.
-/

namespace BTCImporter

/-- One row of the MarketData table as produced by
BTCDataImporter.convert_kline_to_db_format: Symbol, TimeFrame, OpenTime
(seconds, UTC), four prices, Volume, CloseTime (seconds). Times are
rationals: the Python code stores datetimes obtained from millisecond
epochs divided by 1000. -/
structure DbRow where
  symbol : String
  timeFrame : String
  openTime : ℚ
  openPrice : ℚ
  highPrice : ℚ
  lowPrice : ℚ
  closePrice : ℚ
  volume : ℚ
  closeTime : ℚ
deriving DecidableEq

/-- A raw Binance kline as decoded JSON: a list of positions
(open_time, open, high, low, close, volume, close_time, ...). An entry is
some q when the value at that position is numeric; none models a
non-numeric value there, and a missing position is a list that is too
short. In Python a missing or non-numeric position makes
convert_kline_to_db_format raise (IndexError, ValueError or TypeError). -/
abbrev RawKline := List (Option ℚ)

/-- Millisecond open time of a raw kline: position 0, read by the control
loop as klines[-1][0]. The defaults are never reached on the paths where
the loop reads this: conversion of the whole page has succeeded there, so
position 0 holds a numeric value. -/
def rawOpenMs (k : RawKline) : ℚ := (k.head?.getD none).getD 0

/-- Module constant self.start_timestamp: the Binance BTC/USDT launch
epoch in milliseconds, int(datetime(2017, 8, 17, tzinfo=timezone.utc)
.timestamp() * 1000) = 1502928000 * 1000. -/
def start_timestamp : ℚ := 1502928000000

/-- Module constant self.limit: max records per API call. -/
def limit : Nat := 1000

/-- Result of the query SELECT MAX(OpenTime) FROM MarketData WHERE
Symbol = BTC AND TimeFrame = 1m: the maximum OpenTime among matching rows,
or none when no matching row exists (SQL NULL). -/
def storeLatest (store : List DbRow) : Option ℚ :=
  ((store.filter fun r => r.symbol == "BTC" && r.timeFrame == "1m").map
    fun r => r.openTime).max?

/-- BTCDataImporter.get_latest_timestamp as a function of the store
contents and of whether the read raises (dbErr). Python: on a successful
query with a row present it returns int(latest.timestamp() * 1000) + 60000
(truncation toward zero, which equals floor on the non-negative times that
occur); with no row, or on any exception, it returns self.start_timestamp. -/
def get_latest_timestamp (store : List DbRow) (dbErr : Bool) : ℚ :=
  if dbErr then start_timestamp
  else
    match storeLatest store with
    | some latest => ((⌊latest * 1000⌋ : ℤ) : ℚ) + 60000
    | none => start_timestamp

/-- One upstream response: either a decoded page (a 2xx body parsed as a
list of klines) or a transport/HTTP failure (requests.RequestException:
non-2xx via raise_for_status, timeout, connection or decode error). -/
inductive FetchResult where
  | ok (page : List RawKline)
  | transportError
deriving DecidableEq

/-- BTCDataImporter.fetch_klines, with the upstream modelled as a function
from startTime to a response. A transport failure is caught inside
fetch_klines and turned into the empty list: the except branch prints the
error and returns []. -/
def fetch_klines (upstream : ℚ → FetchResult) (start_time : ℚ) :
    List RawKline :=
  match upstream start_time with
  | .ok page => page
  | .transportError => []

/-- BTCDataImporter.convert_kline_to_db_format. It reads kline[0] and
kline[6] (millisecond times, divided by 1000 into second-based datetimes)
and applies float to kline[1] .. kline[5]; a missing position or a
non-numeric value raises in Python, modelled as none. -/
def convert_kline_to_db_format (kline : RawKline) : Option DbRow :=
  match kline[0]?, kline[1]?, kline[2]?, kline[3]?, kline[4]?, kline[5]?,
      kline[6]? with
  | some (some t0), some (some o), some (some h), some (some l),
      some (some c), some (some v), some (some t6) =>
      some { symbol := "BTC", timeFrame := "1m", openTime := t0 / 1000,
             openPrice := o, highPrice := h, lowPrice := l, closePrice := c,
             volume := v, closeTime := t6 / 1000 }
  | _, _, _, _, _, _, _ => none

/-- BTCDataImporter.bulk_insert_data as a function of the store and of
whether the transactional executemany/commit succeeds (ok). Empty batch:
returns 0 without touching the store. Success: every row of the batch is
appended and len(data_batch) is reported. Failure: rollback, store
unchanged, 0 reported. No uniqueness or duplicate check of any kind is
performed against existing rows. -/
def bulk_insert_data (ok : Bool) (store : List DbRow)
    (data_batch : List DbRow) : List DbRow × Nat :=
  if data_batch.isEmpty then (store, 0)
  else if ok then (store ++ data_batch, data_batch.length)
  else (store, 0)

/-- The progress percentage computed by
BTCDataImporter.calculate_progress_stats: completed time span over total
time span times 100 when the total span is positive, else 100. The code
applies no clamping in either direction. -/
def progress_percent (current_timestamp start_ts end_ts : ℚ) : ℚ :=
  if end_ts - start_ts > 0 then
    (current_timestamp - start_ts) / (end_ts - start_ts) * 100
  else 100

/-- The ETA arithmetic of calculate_progress_stats: when progress_percent
is positive, estimated_total_seconds = elapsed_seconds /
(progress_percent / 100) and remaining_seconds = estimated_total_seconds -
elapsed_seconds (the displayed eta is now + remaining_seconds); otherwise
eta is None and the report prints a placeholder. -/
def eta_remaining_seconds (elapsed_seconds p : ℚ) : Option ℚ :=
  if p > 0 then some (elapsed_seconds / (p / 100) - elapsed_seconds)
  else none

/-- How a run of import_historical_data ends. alreadyUpToDate: the
pre-loop start_time >= current_time check returned. done: the while
condition became false (normal completion). exhausted: break on an empty
page, after printing a warning that distinguishes this exit from the
others. failedError: an exception reached the outer except block (here: a
malformed kline raising during conversion). outOfFuel: artifact of the
fuel-bounded embedding of the unbounded while loop. -/
inductive Outcome where
  | alreadyUpToDate
  | done
  | exhausted
  | failedError
  | outOfFuel
deriving DecidableEq

/-- Observable final state of a run: how it ended, the final value of
start_time (the cursor), total_records, batch_count, and the store. -/
structure RunResult where
  outcome : Outcome
  finalCursor : ℚ
  totalRecords : Nat
  batchCount : Nat
  store : List DbRow
deriving DecidableEq

/-- The per-page conversion loop (for kline in klines: append
convert_kline_to_db_format(kline)): the first malformed kline raises, so
the whole page yields none and none of its rows is inserted. -/
def translateBatch : List RawKline → Option (List DbRow)
  | [] => some []
  | k :: rest =>
    match convert_kline_to_db_format k, translateBatch rest with
    | some r, some rs => some (r :: rs)
    | _, _ => none

/-- The while loop of import_historical_data. insertOk gives the outcome
of the database transaction of each batch, indexed by the value of
batch_count at the insert call; fuel bounds the number of iterations of
the embedding. Inside an iteration the code increments batch_count,
fetches, breaks on an empty page, converts every kline (a malformed one
raises out of the loop), inserts, adds the confirmed count to
total_records, and sets start_time to klines[-1][0] + 1 unconditionally. -/
def importLoop (upstream : ℚ → FetchResult) (insertOk : Nat → Bool) :
    Nat → ℚ → ℚ → List DbRow → Nat → Nat → RunResult
  | 0, start_time, _, store, total_records, batch_count =>
      ⟨.outOfFuel, start_time, total_records, batch_count, store⟩
  | fuel + 1, start_time, current_time, store, total_records, batch_count =>
      if start_time < current_time then
        let klines := fetch_klines upstream start_time
        if klines.isEmpty then
          ⟨.exhausted, start_time, total_records, batch_count + 1, store⟩
        else
          match translateBatch klines with
          | none =>
              ⟨.failedError, start_time, total_records, batch_count + 1,
                store⟩
          | some db_data =>
              let ins := bulk_insert_data (insertOk (batch_count + 1))
                store db_data
              importLoop upstream insertOk fuel
                (rawOpenMs (klines.getLast?.getD []) + 1) current_time
                ins.1 (total_records + ins.2) (batch_count + 1)
      else ⟨.done, start_time, total_records, batch_count, store⟩

/-- BTCDataImporter.import_historical_data: derive the start cursor from
the store, fix current_time (now, the stable session end target), return
early when already up to date, else run the while loop with fresh
counters. -/
def import_historical_data (upstream : ℚ → FetchResult)
    (insertOk : Nat → Bool) (store : List DbRow) (dbErr : Bool)
    (current_time : ℚ) (fuel : Nat) : RunResult :=
  let start_time := get_latest_timestamp store dbErr
  if start_time ≥ current_time then
    ⟨.alreadyUpToDate, start_time, 0, 0, store⟩
  else importLoop upstream insertOk fuel start_time current_time store 0 0

/-- A well-formed raw kline with millisecond open time t: every position is
numeric, close time is t + 59999 as for a one-minute candle. -/
def gk (t : ℚ) : RawKline :=
  [some t, some 10, some 12, some 9, some 11, some 5, some (t + 59999)]

/-- A malformed raw kline: position 1 (open price) is non-numeric, so
float(kline[1]) raises in Python. -/
def bk : RawKline :=
  [some 60060, none, some 12, some 9, some 11, some 5, some 120059]

/-- The database row produced by converting gk 60000. -/
def gkRow : DbRow :=
  ⟨"BTC", "1m", 60, 10, 12, 9, 11, 5, 119999 / 1000⟩

/-- A stored row for the (BTC, 1m) key with open time 0 seconds. -/
def row0 : DbRow := ⟨"BTC", "1m", 0, 1, 1, 1, 1, 1, 59999 / 1000⟩

/-- A store holding exactly row0, so the derived resume cursor is 60000. -/
def store0 : List DbRow := [row0]

/-- An upstream holding exactly one record, gk 60000: requests starting at
or before 60000 see it, later requests see no data. -/
def feedA : ℚ → FetchResult :=
  fun s => if s ≤ 60000 then .ok [gk 60000] else .ok []

/-- An upstream whose every request fails at the transport level. -/
def feedErr : ℚ → FetchResult := fun _ => .transportError

/-- An upstream with no data at all: every request yields the empty page. -/
def feedEmpty : ℚ → FetchResult := fun _ => .ok []

/-- An upstream serving one page that contains a well-formed record followed
by a malformed one. -/
def feedC : ℚ → FetchResult :=
  fun s => if s ≤ 60000 then .ok [gk 60000, bk] else .ok []

/-- An upstream backed by a fixed record set, following the feed contract
(up to limit records with open time at or after startTime, in stored
order): used to quantify over arbitrary upstream data when relating two
successive runs. -/
def feedOf (records : List RawKline) : ℚ → FetchResult :=
  fun s => .ok ((records.filter fun k => s ≤ rawOpenMs k).take limit)

section Helpers

/-- Unfolding lemma: with the while condition false the loop returns done at
once, leaving cursor, counters and store untouched. -/
lemma importLoop_done_eq (u : ℚ → FetchResult) (io : Nat → Bool) (fuel : Nat)
    (start now : ℚ) (store : List DbRow) (tot bc : Nat)
    (h : ¬ start < now) :
    importLoop u io (fuel + 1) start now store tot bc =
      ⟨.done, start, tot, bc, store⟩ := by
  simp [importLoop, h]

/-- Unfolding lemma: an empty fetched page ends the loop as exhausted with
the cursor and store untouched and batch_count incremented. -/
lemma importLoop_exhausted_eq (u : ℚ → FetchResult) (io : Nat → Bool)
    (fuel : Nat) (start now : ℚ) (store : List DbRow) (tot bc : Nat)
    (hlt : start < now) (hempty : fetch_klines u start = []) :
    importLoop u io (fuel + 1) start now store tot bc =
      ⟨.exhausted, start, tot, bc + 1, store⟩ := by
  simp [importLoop, hlt, hempty]

/-- Unfolding lemma: a fetched page whose conversion fails ends the loop as
failedError with the cursor and store untouched. -/
lemma importLoop_failed_eq (u : ℚ → FetchResult) (io : Nat → Bool)
    (fuel : Nat) (start now : ℚ) (store : List DbRow) (tot bc : Nat)
    (hlt : start < now) (hne : fetch_klines u start ≠ [])
    (htr : translateBatch (fetch_klines u start) = none) :
    importLoop u io (fuel + 1) start now store tot bc =
      ⟨.failedError, start, tot, bc + 1, store⟩ := by
  rcases hfe : fetch_klines u start with _ | ⟨a, l⟩
  · exact absurd hfe hne
  · rw [hfe] at htr
    simp [importLoop, hlt, hfe, htr]

/-- Unfolding lemma for a full iteration: non-empty page, conversion
succeeds; the loop recurses with cursor set to the millisecond open time of
the last raw record plus 1, the store and total updated by the insert
result, and batch_count incremented. -/
lemma importLoop_step_eq (u : ℚ → FetchResult) (io : Nat → Bool)
    (fuel : Nat) (start now : ℚ) (store : List DbRow) (tot bc : Nat)
    (db_data : List DbRow) (hlt : start < now)
    (hne : fetch_klines u start ≠ [])
    (htr : translateBatch (fetch_klines u start) = some db_data) :
    importLoop u io (fuel + 1) start now store tot bc =
      importLoop u io fuel
        (rawOpenMs ((fetch_klines u start).getLast?.getD []) + 1) now
        (bulk_insert_data (io (bc + 1)) store db_data).1
        (tot + (bulk_insert_data (io (bc + 1)) store db_data).2)
        (bc + 1) := by
  rcases hfe : fetch_klines u start with _ | ⟨a, l⟩
  · exact absurd hfe hne
  · rw [hfe] at htr
    simp [importLoop, hlt, hfe, htr]

/-- A failed transaction leaves the store untouched and confirms zero rows,
whatever the batch. -/
lemma bulk_insert_data_false (store data_batch : List DbRow) :
    bulk_insert_data false store data_batch = (store, 0) := by
  simp [bulk_insert_data]

/-- One malformed kline anywhere in the page makes the conversion of the
whole page fail (the Python loop raises at that record). -/
lemma translateBatch_eq_none_of_mem {klines : List RawKline} {k : RawKline}
    (hmem : k ∈ klines) (hk : convert_kline_to_db_format k = none) :
    translateBatch klines = none := by
  induction klines with
  | nil => cases hmem
  | cons a l ih =>
    rcases List.mem_cons.mp hmem with h | h
    · subst h
      simp [translateBatch, hk]
    · rcases ha : convert_kline_to_db_format a with _ | b
      · simp [translateBatch, ha]
      · simp [translateBatch, ha, ih h]

/-- A record-set feed answers a request with the first limit records at or
after the requested time. -/
lemma fetch_feedOf (R : List RawKline) (s : ℚ) :
    fetch_klines (feedOf R) s =
      (R.filter fun k => s ≤ rawOpenMs k).take limit := rfl

/-- A record-set feed with no record at or after s answers the empty page
at s. -/
lemma fetch_feedOf_empty {R : List RawKline} {s : ℚ}
    (h : ∀ k ∈ R, rawOpenMs k < s) :
    fetch_klines (feedOf R) s = [] := by
  rw [fetch_feedOf]
  have hf : (R.filter fun k => s ≤ rawOpenMs k) = [] := by
    rw [List.filter_eq_nil_iff]
    intro k hk
    simpa using not_le.mpr (h k hk)
  rw [hf, List.take_nil]

/-- Every record of a fetched page comes from the record set of the feed. -/
lemma mem_R_of_mem_fetch {R : List RawKline} {s : ℚ} {k : RawKline}
    (h : k ∈ fetch_klines (feedOf R) s) : k ∈ R := by
  rw [fetch_feedOf] at h
  exact (List.mem_filter.mp (List.mem_of_mem_take h)).1

/-- An empty page from a record-set feed means the set holds no record at
or after the requested time (the page limit 1000 is nonzero, so an empty
take comes from an empty filter). -/
lemma no_data_of_fetch_feedOf_empty {R : List RawKline} {s : ℚ}
    (h : fetch_klines (feedOf R) s = []) :
    ∀ k ∈ R, rawOpenMs k < s := by
  rw [fetch_feedOf] at h
  rcases List.take_eq_nil_iff.mp h with h0 | hf
  · exact absurd h0 (by norm_num [limit])
  · intro k hk
    have := List.filter_eq_nil_iff.mp hf k hk
    simpa using this

/-- A successfully converted kline yields a row keyed (BTC, 1m) whose
stored open time is the raw millisecond open time divided by 1000. -/
lemma convert_fields {k : RawKline} {row : DbRow}
    (h : convert_kline_to_db_format k = some row) :
    row.symbol = "BTC" ∧ row.timeFrame = "1m" ∧
      row.openTime = rawOpenMs k / 1000 := by
  rw [convert_kline_to_db_format] at h
  split at h
  · rename_i t0 o hh ll c v t6 h0 h1 h2 h3 h4 h5 h6
    cases h
    refine ⟨rfl, rfl, ?_⟩
    show (t0 : ℚ) / 1000 = (k.head?.getD none).getD 0 / 1000
    rw [List.head?_eq_getElem?, h0]
    rfl
  · cases h

/-- Every kline of a successfully converted page has its converted row in
the resulting batch. -/
lemma translateBatch_mem :
    ∀ {klines : List RawKline} {db : List DbRow},
      translateBatch klines = some db → ∀ {k : RawKline}, k ∈ klines →
      ∃ row ∈ db, convert_kline_to_db_format k = some row := by
  intro klines
  induction klines with
  | nil => intro db h k hk; cases hk
  | cons a l ih =>
    intro db h k hk
    rw [translateBatch] at h
    rcases ha : convert_kline_to_db_format a with _ | r <;> rw [ha] at h
    · cases h
    · rcases hl : translateBatch l with _ | rs <;> rw [hl] at h
      · cases h
      · simp only [Option.some.injEq] at h
        subst h
        rcases List.mem_cons.mp hk with rfl | hk2
        · exact ⟨r, List.mem_cons_self r rs, ha⟩
        · obtain ⟨row, hrow, hc⟩ := ih hl hk2
          exact ⟨row, List.mem_cons_of_mem _ hrow, hc⟩

/-- A successful page conversion preserves the number of records. -/
lemma translateBatch_length :
    ∀ {klines : List RawKline} {db : List DbRow},
      translateBatch klines = some db → db.length = klines.length := by
  intro klines
  induction klines with
  | nil => intro db h; rw [translateBatch] at h; cases h; rfl
  | cons a l ih =>
    intro db h
    rw [translateBatch] at h
    rcases ha : convert_kline_to_db_format a with _ | r <;> rw [ha] at h
    · cases h
    · rcases hl : translateBatch l with _ | rs <;> rw [hl] at h
      · cases h
      · simp only [Option.some.injEq] at h
        subst h
        simp [ih hl]

/-- The while loop never produces the pre-loop alreadyUpToDate exit. -/
lemma importLoop_never_upToDate (u : ℚ → FetchResult) (io : Nat → Bool) :
    ∀ (fuel : Nat) (start now : ℚ) (store : List DbRow) (tot bc : Nat),
      (importLoop u io fuel start now store tot bc).outcome ≠
        Outcome.alreadyUpToDate := by
  intro fuel
  induction fuel with
  | zero => intro start now store tot bc; simp [importLoop]
  | succ f ih =>
    intro start now store tot bc
    by_cases hlt : start < now
    · rcases hfe : fetch_klines u start with _ | ⟨a, l⟩
      · rw [importLoop_exhausted_eq u io f start now store tot bc hlt hfe]
        simp
      · rcases htr : translateBatch (fetch_klines u start) with _ | db
        · rw [importLoop_failed_eq u io f start now store tot bc hlt
            (by rw [hfe]; simp) htr]
          simp
        · rw [importLoop_step_eq u io f start now store tot bc db hlt
            (by rw [hfe]; simp) htr]
          exact ih _ _ _ _ _
    · rw [importLoop_done_eq u io f start now store tot bc hlt]
      simp

/-- When a run over a record-set feed whose records all precede the session
target ends in done or exhausted, no record of the set lies at or after the
final cursor: the done exit has cursor at or past the target, and the
exhausted exit has just seen an empty page at the final cursor. -/
lemma importLoop_no_data_past_final (R : List RawKline) (io : Nat → Bool) :
    ∀ (fuel : Nat) (start now : ℚ) (store : List DbRow) (tot bc : Nat),
      (∀ k ∈ R, rawOpenMs k < now) →
      ((importLoop (feedOf R) io fuel start now store tot bc).outcome =
          Outcome.done ∨
        (importLoop (feedOf R) io fuel start now store tot bc).outcome =
          Outcome.exhausted) →
      ∀ k ∈ R, rawOpenMs k <
        (importLoop (feedOf R) io fuel start now store tot
          bc).finalCursor := by
  intro fuel
  induction fuel with
  | zero =>
    intro start now store tot bc _ hout
    rcases hout with h | h <;> simp [importLoop] at h
  | succ f ih =>
    intro start now store tot bc hnow hout
    by_cases hlt : start < now
    · rcases hfe : fetch_klines (feedOf R) start with _ | ⟨a, l⟩
      · rw [importLoop_exhausted_eq _ io f start now store tot bc hlt hfe]
        exact no_data_of_fetch_feedOf_empty hfe
      · rcases htr : translateBatch (fetch_klines (feedOf R) start)
          with _ | db
        · rw [importLoop_failed_eq _ io f start now store tot bc hlt
            (by rw [hfe]; simp) htr] at hout
          rcases hout with h | h <;> cases h
        · rw [importLoop_step_eq _ io f start now store tot bc db hlt
            (by rw [hfe]; simp) htr] at hout ⊢
          exact ih _ _ _ _ _ hnow hout
    · rw [importLoop_done_eq _ io f start now store tot bc hlt]
      intro k hk
      exact lt_of_lt_of_le (hnow k hk) (not_lt.mp hlt)

/-- Progress invariant of the loop under an all-succeeding store: either
the run changed nothing (cursor and store as at entry), or the final cursor
is one past the millisecond open time of some record k of the feed set and
the final store holds the (BTC, 1m) row converted from k — whose stored
open time is that same millisecond time divided by 1000. This ties the
resumption cursor a later run derives from the store to the position the
finished run had reached. -/
lemma importLoop_store_inv (R : List RawKline) :
    ∀ (fuel : Nat) (start now : ℚ) (store : List DbRow) (tot bc : Nat),
      ((importLoop (feedOf R) (fun _ => true) fuel start now store tot
          bc).finalCursor = start ∧
        (importLoop (feedOf R) (fun _ => true) fuel start now store tot
          bc).store = store) ∨
      ∃ k ∈ R,
        (importLoop (feedOf R) (fun _ => true) fuel start now store tot
          bc).finalCursor = rawOpenMs k + 1 ∧
        ∃ row ∈ (importLoop (feedOf R) (fun _ => true) fuel start now store
          tot bc).store,
          row.symbol = "BTC" ∧ row.timeFrame = "1m" ∧
            row.openTime = rawOpenMs k / 1000 := by
  intro fuel
  induction fuel with
  | zero =>
    intro start now store tot bc
    exact Or.inl ⟨rfl, rfl⟩
  | succ f ih =>
    intro start now store tot bc
    by_cases hlt : start < now
    · rcases hfe : fetch_klines (feedOf R) start with _ | ⟨a, l⟩
      · rw [importLoop_exhausted_eq _ _ f start now store tot bc hlt hfe]
        exact Or.inl ⟨rfl, rfl⟩
      · rcases htr : translateBatch (fetch_klines (feedOf R) start)
          with _ | db
        · rw [importLoop_failed_eq _ _ f start now store tot bc hlt
            (by rw [hfe]; simp) htr]
          exact Or.inl ⟨rfl, rfl⟩
        · have hne : fetch_klines (feedOf R) start ≠ [] := by
            rw [hfe]; simp
          have hdbne : db ≠ [] := by
            intro hdb
            have := translateBatch_length htr
            rw [hdb, hfe] at this
            simp at this
          have hbi : bulk_insert_data true store db =
              (store ++ db, db.length) := by
            simp [bulk_insert_data, hdbne]
          rw [importLoop_step_eq _ _ f start now store tot bc db hlt hne
            htr, hbi]
          rcases ih (rawOpenMs ((fetch_klines (feedOf R)
              start).getLast?.getD []) + 1) now (store ++ db)
              (tot + db.length) (bc + 1) with ⟨hcur, hst⟩ | hright
          · refine Or.inr ?_
            have hlast_mem : (fetch_klines (feedOf R) start).getLast hne ∈
                fetch_klines (feedOf R) start := List.getLast_mem hne
            have hgd : (fetch_klines (feedOf R) start).getLast?.getD [] =
                (fetch_klines (feedOf R) start).getLast hne := by
              rw [List.getLast?_eq_getLast _ hne]
              rfl
            obtain ⟨row, hrowdb, hconv⟩ := translateBatch_mem htr hlast_mem
            obtain ⟨hs, ht, ho⟩ := convert_fields hconv
            refine ⟨(fetch_klines (feedOf R) start).getLast hne,
              mem_R_of_mem_fetch hlast_mem, ?_, row, ?_, hs, ht, ho⟩
            · rw [hcur, hgd]
            · rw [hst]
              exact List.mem_append_right _ hrowdb
          · exact Or.inr hright
    · rw [importLoop_done_eq _ _ f start now store tot bc hlt]
      exact Or.inl ⟨rfl, rfl⟩

/-- Closed form of get_latest_timestamp on a successful read of a
non-empty store. -/
lemma get_latest_timestamp_some {store : List DbRow} {m : ℚ}
    (hm : storeLatest store = some m) :
    get_latest_timestamp store false = ((⌊m * 1000⌋ : ℤ) : ℚ) + 60000 := by
  rw [get_latest_timestamp, if_neg (by simp), hm]

/-- A (BTC, 1m) row in the store bounds the stored maximum from below. -/
lemma storeLatest_ge_of_mem {store : List DbRow} {row : DbRow}
    (hr : row ∈ store) (hs : row.symbol = "BTC")
    (ht : row.timeFrame = "1m") :
    ∃ m : ℚ, storeLatest store = some m ∧ row.openTime ≤ m := by
  have hmem : row.openTime ∈
      ((store.filter fun r => r.symbol == "BTC" && r.timeFrame == "1m").map
        fun r => r.openTime) :=
    List.mem_map_of_mem _ (List.mem_filter.mpr ⟨hr, by simp [hs, ht]⟩)
  obtain ⟨m, hm⟩ :=
    Option.isSome_iff_exists.mp (List.isSome_max?_of_mem hmem)
  exact ⟨m, hm,
    (List.max?_le_iff (fun a b c => max_le_iff) hm).mp le_rfl _ hmem⟩

/-- A run whose very first fetch (at the store-derived cursor) is empty
inserts nothing and leaves the store unchanged, for any fuel: it either
returns before fetching (cursor at or past the target) or ends exhausted
on that first empty page. -/
lemma run_zero_of_fetch_empty (u : ℚ → FetchResult) (io : Nat → Bool)
    (store : List DbRow) (now : ℚ) (fuel : Nat)
    (hfetch : fetch_klines u (get_latest_timestamp store false) = []) :
    (import_historical_data u io store false now fuel).totalRecords = 0 ∧
    (import_historical_data u io store false now fuel).store = store := by
  by_cases h : get_latest_timestamp store false ≥ now
  · simp [import_historical_data, h]
  · have hrun : import_historical_data u io store false now fuel =
        importLoop u io fuel (get_latest_timestamp store false) now store
          0 0 := by
      simp [import_historical_data, h]
    rcases fuel with _ | f
    · rw [hrun, importLoop]
      exact ⟨rfl, rfl⟩
    · rw [hrun, importLoop_exhausted_eq u io f _ now store 0 0
        (not_le.mp h) hfetch]
      exact ⟨rfl, rfl⟩

end Helpers

section Evaluations

/-- The resume cursor derived from store0: open time 0 seconds gives
0 * 1000 + 60000 = 60000 ms. -/
lemma store0_cursor : get_latest_timestamp store0 false = 60000 := by
  norm_num [get_latest_timestamp, storeLatest, store0, row0, start_timestamp]

/-- Converting the page [gk 60000] succeeds and yields [gkRow]. -/
lemma translate_gk : translateBatch [gk 60000] = some [gkRow] := by
  norm_num [translateBatch, convert_kline_to_db_format, gk, gkRow]

/-- The millisecond open time of gk 60000 is 60000. -/
lemma rawOpenMs_gk : rawOpenMs (gk 60000) = 60000 := rfl

/-- feedA serves its single record to a request at 60000. -/
lemma fetch_feedA_low : fetch_klines feedA 60000 = [gk 60000] := by
  norm_num [fetch_klines, feedA]

/-- feedA is exhausted for a request at 60001. -/
lemma fetch_feedA_high : fetch_klines feedA 60001 = [] := by
  norm_num [fetch_klines, feedA]

end Evaluations

/-- C1, counterexample. With the store-derived cursor at 60000, the page
[gk 60000] is non-empty, converts to the non-empty batch [gkRow], and the
insert confirms zero rows (failing transaction) — yet the run advances the
cursor to 60001, past the unconfirmed batch, and performs a second fetch
cycle (batch_count 2) instead of stopping the session at that cycle. This
refutes the claim that the cursor is never advanced past an unconfirmed
batch and that the session stops. -/
theorem C1_counterexample :
    get_latest_timestamp store0 false = 60000 ∧
    fetch_klines feedA 60000 = [gk 60000] ∧
    translateBatch [gk 60000] = some [gkRow] ∧
    bulk_insert_data false store0 [gkRow] = (store0, 0) ∧
    import_historical_data feedA (fun _ => false) store0 false 200000 5 =
      ⟨.exhausted, 60001, 0, 2, store0⟩ := by
  refine ⟨store0_cursor, fetch_feedA_low, translate_gk,
    bulk_insert_data_false _ _, ?_⟩
  rw [import_historical_data, store0_cursor]
  norm_num [importLoop, feedA, fetch_klines, translateBatch,
    convert_kline_to_db_format, bulk_insert_data, rawOpenMs, gk]

/-- C1, amended: when insertBatch confirms zero rows for a non-empty
translated batch, the loop neither stops nor withholds the cursor: it
continues with the store and the records counter unchanged, batch_count
incremented, and the cursor advanced to the millisecond open time of the
last raw record of the page plus 1 — exactly as after a confirmed insert. -/
theorem C1_amended_zero_insert_still_advances
    (u : ℚ → FetchResult) (io : Nat → Bool) (fuel : Nat) (start now : ℚ)
    (store : List DbRow) (tot bc : Nat) (db_data : List DbRow)
    (hlt : start < now) (hne : fetch_klines u start ≠ [])
    (htr : translateBatch (fetch_klines u start) = some db_data)
    (hio : io (bc + 1) = false) :
    importLoop u io (fuel + 1) start now store tot bc =
      importLoop u io fuel
        (rawOpenMs ((fetch_klines u start).getLast?.getD []) + 1) now
        store tot (bc + 1) := by
  have h := importLoop_step_eq u io fuel start now store tot bc db_data hlt
    hne htr
  rw [hio, bulk_insert_data_false] at h
  simpa using h

/-- C1 witness: the amended statement instantiated at feedA with a failing
transaction, cursor 60000, session target 200000. -/
theorem C1_witness :
    ((60000 : ℚ) < 200000 ∧ fetch_klines feedA 60000 ≠ [] ∧
      translateBatch (fetch_klines feedA 60000) = some [gkRow] ∧
      (fun _ => false : Nat → Bool) 1 = false) ∧
    importLoop feedA (fun _ => false) 2 60000 200000 store0 0 0 =
      importLoop feedA (fun _ => false) 1
        (rawOpenMs ((fetch_klines feedA 60000).getLast?.getD []) + 1) 200000
        store0 0 1 := by
  have h1 : (60000 : ℚ) < 200000 := by norm_num
  have h2 : fetch_klines feedA 60000 ≠ [] := by rw [fetch_feedA_low]; simp
  have h3 : translateBatch (fetch_klines feedA 60000) = some [gkRow] := by
    rw [fetch_feedA_low]; exact translate_gk
  exact ⟨⟨h1, h2, h3, rfl⟩,
    C1_amended_zero_insert_still_advances feedA (fun _ => false) 1 60000
      200000 store0 0 0 [gkRow] h1 h2 h3 rfl⟩

/-- C2, counterexample. A transport-level failure does not produce a
condition distinct from the empty-list exhaustion signal: fetch_klines
returns the same empty list for an upstream that fails at the transport
level (feedErr) as for an upstream with no data (feedEmpty), and the
controller run over the failing upstream ends exactly as on exhaustion,
refuting the claim that such a failure is never treated as exhaustion and
that an empty list is returned only when no data exists. -/
theorem C2_counterexample :
    fetch_klines feedErr 60000 = [] ∧
    fetch_klines feedEmpty 60000 = [] ∧
    fetch_klines feedErr 60000 = fetch_klines feedEmpty 60000 ∧
    import_historical_data feedErr (fun _ => true) store0 false 200000 5 =
      ⟨.exhausted, 60000, 0, 1, store0⟩ := by
  refine ⟨rfl, rfl, rfl, ?_⟩
  rw [import_historical_data, store0_cursor]
  norm_num [importLoop, fetch_klines, feedErr]

/-- C2, amended: fetch_klines catches the transport failure and returns the
empty list — the very value that signals exhaustion — and the control loop
consequently ends such a cycle in the exhausted exit, indistinguishable
from upstream exhaustion. -/
theorem C2_amended_transport_failure_is_exhaustion
    (u : ℚ → FetchResult) (io : Nat → Bool) (fuel : Nat) (start now : ℚ)
    (store : List DbRow) (tot bc : Nat)
    (herr : u start = FetchResult.transportError) :
    fetch_klines u start = [] ∧
    (start < now →
      importLoop u io (fuel + 1) start now store tot bc =
        ⟨.exhausted, start, tot, bc + 1, store⟩) := by
  have hfe : fetch_klines u start = [] := by simp [fetch_klines, herr]
  exact ⟨hfe, fun hlt =>
    importLoop_exhausted_eq u io fuel start now store tot bc hlt hfe⟩

/-- C2 witness: the amended statement instantiated at the all-failing
upstream feedErr with cursor 0 and session target 100. -/
theorem C2_witness :
    feedErr 0 = FetchResult.transportError ∧ (0 : ℚ) < 100 ∧
    fetch_klines feedErr 0 = [] ∧
    importLoop feedErr (fun _ => true) 1 0 100 [] 0 0 =
      ⟨.exhausted, 0, 0, 1, []⟩ := by
  have h := C2_amended_transport_failure_is_exhaustion feedErr
    (fun _ => true) 0 0 100 [] 0 0 rfl
  exact ⟨rfl, by norm_num, h.1, h.2 (by norm_num)⟩

/-- C3, confirmed. An empty page received while cursor < sessionEndTarget
ends the loop in the exhausted exit (which the code reports distinctly, by
printing its no-more-data warning before the final statistics), an outcome
different from done; and whenever sessionEndTarget ≤ cursor the loop ends
in done with batch_count unchanged — since every fetch call is preceded by
a batch_count increment, an unchanged batch_count means no further fetch
call was issued. -/
theorem C3_exhausted_vs_done
    (u : ℚ → FetchResult) (io : Nat → Bool) (fuel : Nat) (start now : ℚ)
    (store : List DbRow) (tot bc : Nat) :
    (start < now → fetch_klines u start = [] →
      importLoop u io (fuel + 1) start now store tot bc =
        ⟨.exhausted, start, tot, bc + 1, store⟩) ∧
    (now ≤ start →
      importLoop u io (fuel + 1) start now store tot bc =
        ⟨.done, start, tot, bc, store⟩) ∧
    Outcome.exhausted ≠ Outcome.done := by
  refine ⟨fun hlt he =>
    importLoop_exhausted_eq u io fuel start now store tot bc hlt he,
    fun hge =>
      importLoop_done_eq u io fuel start now store tot bc (not_lt.mpr hge),
    by simp⟩

/-- C3 witness: both branches instantiated on feedEmpty — an empty page at
cursor 0 with target 100 ends exhausted; cursor 100 at target 100 ends
done without another fetch (batch_count stays 0). -/
theorem C3_witness :
    ((0 : ℚ) < 100 ∧ fetch_klines feedEmpty 0 = [] ∧
      importLoop feedEmpty (fun _ => true) 1 0 100 [] 0 0 =
        ⟨.exhausted, 0, 0, 1, []⟩) ∧
    ((100 : ℚ) ≤ 100 ∧
      importLoop feedEmpty (fun _ => true) 1 100 100 [] 0 0 =
        ⟨.done, 100, 0, 0, []⟩) := by
  refine ⟨⟨by norm_num, rfl,
    (C3_exhausted_vs_done feedEmpty (fun _ => true) 0 0 100 [] 0 0).1
      (by norm_num) rfl⟩,
    ⟨le_refl _,
      (C3_exhausted_vs_done feedEmpty (fun _ => true) 0 100 100 [] 0 0).2.1
        (le_refl _)⟩⟩

/-- C4, confirmed. For every store state S0 and every upstream feed backed
by a fixed record set R (no new upstream data arriving between the runs:
the same R serves both runs, and records beyond the first session target
now1 do not exist, as candles cannot lie in the future), with integral
millisecond open times and an all-succeeding store gateway: if the first
run terminates (done, exhausted, or already up to date — not out of fuel
and not aborted by a malformed record), then running the importer again
from the store the first run left behind inserts zero additional rows and
leaves the store unchanged, whatever the second session target and fuel. -/
theorem C4_second_run_inserts_nothing
    (R : List RawKline) (S0 : List DbRow) (now1 now2 : ℚ)
    (fuel1 fuel2 : Nat)
    (hints : ∀ k ∈ R, ∃ n : ℤ, rawOpenMs k = (n : ℚ))
    (hnow : ∀ k ∈ R, rawOpenMs k < now1)
    (hend :
      (import_historical_data (feedOf R) (fun _ => true) S0 false now1
        fuel1).outcome = Outcome.done ∨
      (import_historical_data (feedOf R) (fun _ => true) S0 false now1
        fuel1).outcome = Outcome.exhausted ∨
      (import_historical_data (feedOf R) (fun _ => true) S0 false now1
        fuel1).outcome = Outcome.alreadyUpToDate) :
    (import_historical_data (feedOf R) (fun _ => true)
      (import_historical_data (feedOf R) (fun _ => true) S0 false now1
        fuel1).store false now2 fuel2).totalRecords = 0 ∧
    (import_historical_data (feedOf R) (fun _ => true)
      (import_historical_data (feedOf R) (fun _ => true) S0 false now1
        fuel1).store false now2 fuel2).store =
      (import_historical_data (feedOf R) (fun _ => true) S0 false now1
        fuel1).store := by
  apply run_zero_of_fetch_empty
  apply fetch_feedOf_empty
  by_cases hpre : get_latest_timestamp S0 false ≥ now1
  · have hrun1 : import_historical_data (feedOf R) (fun _ => true) S0 false
        now1 fuel1 = ⟨.alreadyUpToDate, get_latest_timestamp S0 false, 0,
          0, S0⟩ := by
      simp [import_historical_data, hpre]
    rw [hrun1]
    intro k hk
    exact lt_of_lt_of_le (hnow k hk) hpre
  · have hrun1 : import_historical_data (feedOf R) (fun _ => true) S0 false
        now1 fuel1 = importLoop (feedOf R) (fun _ => true) fuel1
          (get_latest_timestamp S0 false) now1 S0 0 0 := by
      simp [import_historical_data, hpre]
    rw [hrun1] at hend ⊢
    have hde : (importLoop (feedOf R) (fun _ => true) fuel1
        (get_latest_timestamp S0 false) now1 S0 0 0).outcome =
          Outcome.done ∨
        (importLoop (feedOf R) (fun _ => true) fuel1
          (get_latest_timestamp S0 false) now1 S0 0 0).outcome =
          Outcome.exhausted := by
      rcases hend with h | h | h
      · exact Or.inl h
      · exact Or.inr h
      · exact absurd h (importLoop_never_upToDate _ _ _ _ _ _ _ _)
    have hpast := importLoop_no_data_past_final R (fun _ => true) fuel1
      (get_latest_timestamp S0 false) now1 S0 0 0 hnow hde
    rcases importLoop_store_inv R fuel1 (get_latest_timestamp S0 false)
        now1 S0 0 0 with ⟨hcur, hst⟩ | ⟨k0, hk0R, hcur, row, hrow, hs, ht,
        ho⟩
    · rw [hcur] at hpast
      rw [hst]
      exact hpast
    · obtain ⟨m, hm, hle⟩ := storeLatest_ge_of_mem hrow hs ht
      rw [get_latest_timestamp_some hm]
      obtain ⟨n, hn⟩ := hints k0 hk0R
      have hm1000 : (n : ℚ) ≤ m * 1000 := by
        rw [← hn]
        calc rawOpenMs k0 = rawOpenMs k0 / 1000 * 1000 := by
              rw [div_mul_cancel₀]
              norm_num
          _ = row.openTime * 1000 := by rw [ho]
          _ ≤ m * 1000 := by
              apply mul_le_mul_of_nonneg_right hle
              norm_num
      have hfl2 : ((n : ℤ) : ℚ) ≤ ((⌊m * 1000⌋ : ℤ) : ℚ) := by
        exact_mod_cast Int.le_floor.mpr hm1000
      intro k hk
      have h1 : rawOpenMs k < rawOpenMs k0 + 1 := by
        have := hpast k hk
        rw [hcur] at this
        exact this
      have h2 : rawOpenMs k0 + 1 ≤ ((⌊m * 1000⌋ : ℤ) : ℚ) + 60000 := by
        rw [hn]
        have h60 : (1 : ℚ) ≤ 60000 := by norm_num
        linarith
      linarith

/-- C4 witness: record set [gk 60000] over store0. The first run (target
200000) ingests the record and ends exhausted; the second run (target
300000) resumes from the enlarged store, inserts zero rows and leaves the
store unchanged. -/
theorem C4_witness :
    ((∀ k ∈ [gk 60000], ∃ n : ℤ, rawOpenMs k = (n : ℚ)) ∧
      (∀ k ∈ [gk 60000], rawOpenMs k < 200000) ∧
      (import_historical_data (feedOf [gk 60000]) (fun _ => true) store0
        false 200000 5).outcome = Outcome.exhausted) ∧
    (import_historical_data (feedOf [gk 60000]) (fun _ => true)
      (import_historical_data (feedOf [gk 60000]) (fun _ => true) store0
        false 200000 5).store false 300000 5).totalRecords = 0 ∧
    (import_historical_data (feedOf [gk 60000]) (fun _ => true)
      (import_historical_data (feedOf [gk 60000]) (fun _ => true) store0
        false 200000 5).store false 300000 5).store =
      (import_historical_data (feedOf [gk 60000]) (fun _ => true) store0
        false 200000 5).store := by
  have hrun1 : import_historical_data (feedOf [gk 60000]) (fun _ => true)
      store0 false 200000 5 =
        ⟨.exhausted, 60001, 1, 2, store0 ++ [gkRow]⟩ := by
    rw [import_historical_data, store0_cursor]
    norm_num [importLoop, feedOf, fetch_klines, translateBatch,
      convert_kline_to_db_format, bulk_insert_data, rawOpenMs, gk, gkRow,
      store0, row0, limit, List.take_of_length_le]
  have h1 : ∀ k ∈ [gk 60000], ∃ n : ℤ, rawOpenMs k = (n : ℚ) := by
    intro k hk
    rw [List.mem_singleton] at hk
    subst hk
    exact ⟨60000, by norm_num [rawOpenMs, gk]⟩
  have h2 : ∀ k ∈ [gk 60000], rawOpenMs k < 200000 := by
    intro k hk
    rw [List.mem_singleton] at hk
    subst hk
    norm_num [rawOpenMs, gk]
  have h3 : (import_historical_data (feedOf [gk 60000]) (fun _ => true)
      store0 false 200000 5).outcome = Outcome.exhausted := by
    rw [hrun1]
  exact ⟨⟨h1, h2, h3⟩,
    C4_second_run_inserts_nothing [gk 60000] store0 200000 300000 5 5 h1 h2
      (Or.inr (Or.inl h3))⟩

/-- C5, counterexample. After ingesting the page [gk 60000], whose last raw
record has millisecond open time 60000, the claim predicts a cursor of
60000 + 60000 = 120000 (one 1m interval unit is 60000 ms); the code sets
start_time = klines[-1][0] + 1 = 60001, one millisecond — not one interval
unit — past the last record. -/
theorem C5_counterexample :
    import_historical_data feedA (fun _ => true) store0 false 200000 5 =
      ⟨.exhausted, 60001, 1, 2, store0 ++ [gkRow]⟩ ∧
    rawOpenMs (gk 60000) + 60000 = 120000 ∧ (60001 : ℚ) ≠ 120000 := by
  refine ⟨?_, by norm_num [rawOpenMs, gk], by norm_num⟩
  rw [import_historical_data, store0_cursor]
  norm_num [importLoop, feedA, fetch_klines, translateBatch,
    convert_kline_to_db_format, bulk_insert_data, rawOpenMs, gk, gkRow,
    store0, row0]

/-- C5, amended: after every page ingestion the cursor is set to the
millisecond open time of the last record of the fetched raw page plus one
millisecond (not one interval unit). The raw-page part of the claim is
right: the new cursor is computed from the raw page and depends neither on
the translated batch nor on the insert result. -/
theorem C5_amended_cursor_is_last_raw_open_plus_one_ms
    (u : ℚ → FetchResult) (io : Nat → Bool) (fuel : Nat) (start now : ℚ)
    (store : List DbRow) (tot bc : Nat) (db_data : List DbRow)
    (hlt : start < now) (hne : fetch_klines u start ≠ [])
    (htr : translateBatch (fetch_klines u start) = some db_data) :
    importLoop u io (fuel + 1) start now store tot bc =
      importLoop u io fuel
        (rawOpenMs ((fetch_klines u start).getLast?.getD []) + 1) now
        (bulk_insert_data (io (bc + 1)) store db_data).1
        (tot + (bulk_insert_data (io (bc + 1)) store db_data).2)
        (bc + 1) :=
  importLoop_step_eq u io fuel start now store tot bc db_data hlt hne htr

/-- C5 witness: the amended statement instantiated at feedA with a
succeeding transaction. -/
theorem C5_witness :
    ((60000 : ℚ) < 200000 ∧ fetch_klines feedA 60000 ≠ [] ∧
      translateBatch (fetch_klines feedA 60000) = some [gkRow]) ∧
    importLoop feedA (fun _ => true) 2 60000 200000 store0 0 0 =
      importLoop feedA (fun _ => true) 1
        (rawOpenMs ((fetch_klines feedA 60000).getLast?.getD []) + 1) 200000
        (bulk_insert_data true store0 [gkRow]).1
        (0 + (bulk_insert_data true store0 [gkRow]).2) 1 := by
  have h1 : (60000 : ℚ) < 200000 := by norm_num
  have h2 : fetch_klines feedA 60000 ≠ [] := by rw [fetch_feedA_low]; simp
  have h3 : translateBatch (fetch_klines feedA 60000) = some [gkRow] := by
    rw [fetch_feedA_low]; exact translate_gk
  exact ⟨⟨h1, h2, h3⟩,
    C5_amended_cursor_is_last_raw_open_plus_one_ms feedA (fun _ => true) 1
      60000 200000 store0 0 0 [gkRow] h1 h2 h3⟩

/-- C6, confirmed. At session start the cursor is the maximum stored open
timestamp for the (BTC, 1m) key plus one interval: a stored maximum of m
seconds whose millisecond value m * 1000 is integral gives cursor
m * 1000 + 60000 (60000 ms = one 1m interval); with no stored rows the
cursor is the fixed epoch start_timestamp = 1502928000000, the millisecond
epoch of 2017-08-17 00:00:00 UTC (Binance BTC/USDT launch), which precedes
the first available upstream data. -/
theorem C6_initial_cursor :
    (∀ (store : List DbRow) (m : ℚ) (n : ℤ), storeLatest store = some m →
      m * 1000 = (n : ℚ) →
      get_latest_timestamp store false = m * 1000 + 60000) ∧
    (∀ store : List DbRow, storeLatest store = none →
      get_latest_timestamp store false = start_timestamp) ∧
    start_timestamp = 1502928000000 := by
  refine ⟨fun store m n hm hn => ?_, fun store hm => ?_, rfl⟩
  · simp [get_latest_timestamp, hm, hn]
  · simp [get_latest_timestamp, hm]

/-- C6 witness: store0 has stored maximum 0 seconds and gives cursor
0 * 1000 + 60000; the empty store gives the 2017 epoch. -/
theorem C6_witness :
    (storeLatest store0 = some 0 ∧ (0 : ℚ) * 1000 = ((0 : ℤ) : ℚ) ∧
      get_latest_timestamp store0 false = 0 * 1000 + 60000) ∧
    (storeLatest ([] : List DbRow) = none ∧
      get_latest_timestamp [] false = start_timestamp) := by
  have h1 : storeLatest store0 = some 0 := by
    norm_num [storeLatest, store0, row0]
  exact ⟨⟨h1, by norm_num, C6_initial_cursor.1 store0 0 0 h1 (by norm_num)⟩,
    ⟨rfl, C6_initial_cursor.2.1 [] rfl⟩⟩

/-- C7, counterexample. The fetched page [gk 60000, bk] contains the
malformed record bk (non-numeric open price); the claim predicts that bk is
skipped and counted while the rest of the batch (gk 60000) is ingested and
the run continues. Instead the conversion raises, the exception ends the
whole run (failedError), nothing from the batch is inserted, the store is
unchanged and the cursor is not advanced. -/
theorem C7_counterexample :
    convert_kline_to_db_format (gk 60000) = some gkRow ∧
    convert_kline_to_db_format bk = none ∧
    fetch_klines feedC 60000 = [gk 60000, bk] ∧
    import_historical_data feedC (fun _ => true) store0 false 200000 5 =
      ⟨.failedError, 60000, 0, 1, store0⟩ := by
  refine ⟨by norm_num [convert_kline_to_db_format, gk, gkRow], rfl,
    by norm_num [fetch_klines, feedC], ?_⟩
  rw [import_historical_data, store0_cursor]
  norm_num [importLoop, feedC, fetch_klines, translateBatch,
    convert_kline_to_db_format, gk, bk]

/-- C7, amended: a record with missing or non-numeric required fields makes
the per-record conversion raise; the exception propagates out of the batch
loop and aborts the entire run (the outer handler reports the error and
returns), so the batch is abandoned — no record of it is inserted, the
store and counters are unchanged and the cursor is not advanced. -/
theorem C7_amended_malformed_record_aborts_run
    (u : ℚ → FetchResult) (io : Nat → Bool) (fuel : Nat) (start now : ℚ)
    (store : List DbRow) (tot bc : Nat) (k : RawKline)
    (hlt : start < now) (hmem : k ∈ fetch_klines u start)
    (hbad : convert_kline_to_db_format k = none) :
    importLoop u io (fuel + 1) start now store tot bc =
      ⟨.failedError, start, tot, bc + 1, store⟩ := by
  have hne : fetch_klines u start ≠ [] := by
    intro h
    rw [h] at hmem
    cases hmem
  exact importLoop_failed_eq u io fuel start now store tot bc hlt hne
    (translateBatch_eq_none_of_mem hmem hbad)

/-- C7 witness: the amended statement instantiated at feedC, whose page at
60000 contains the malformed record bk. -/
theorem C7_witness :
    ((60000 : ℚ) < 200000 ∧ bk ∈ fetch_klines feedC 60000 ∧
      convert_kline_to_db_format bk = none) ∧
    importLoop feedC (fun _ => true) 1 60000 200000 store0 0 0 =
      ⟨.failedError, 60000, 0, 1, store0⟩ := by
  have hf : fetch_klines feedC 60000 = [gk 60000, bk] := by
    norm_num [fetch_klines, feedC]
  have hmem : bk ∈ fetch_klines feedC 60000 := by rw [hf]; simp
  exact ⟨⟨by norm_num, hmem, rfl⟩,
    C7_amended_malformed_record_aborts_run feedC (fun _ => true) 0 60000
      200000 store0 0 0 bk (by norm_num) hmem rfl⟩

/-- C8, counterexample. The progress computation applies no clamping: at
currentCursor 200, sessionStart 0, sessionEndTarget 100 (a reachable state,
since the last fetched page may extend past the fixed session target) the
coverage is 200 / 100 = 2, which exceeds 1, refuting the claim that
coverage equals the clamped ratio and never exceeds 1. -/
theorem C8_counterexample :
    progress_percent 200 0 100 = 200 ∧
    ¬ progress_percent 200 0 100 / 100 ≤ 1 := by
  norm_num [progress_percent]

/-- C8, amended: coverage (progress_percent / 100) equals the unclamped
ratio (currentCursor − sessionStart) / (sessionEndTarget − sessionStart)
when the denominator is positive — so it can exceed 1 or drop below 0 on
out-of-range cursors — and is defined as 1 (100 percent) whenever the
denominator is zero or negative; within the range sessionStart ≤ cursor ≤
target the value does lie between 0 and 1. -/
theorem C8_amended_unclamped_coverage :
    (∀ cur s e : ℚ, s < e →
      progress_percent cur s e = (cur - s) / (e - s) * 100) ∧
    (∀ cur s e : ℚ, e ≤ s → progress_percent cur s e = 100) ∧
    (∀ cur s e : ℚ, s ≤ cur → cur ≤ e → s < e →
      0 ≤ progress_percent cur s e / 100 ∧
        progress_percent cur s e / 100 ≤ 1) := by
  refine ⟨fun cur s e h => ?_, fun cur s e h => ?_,
    fun cur s e h1 h2 h3 => ?_⟩
  · rw [progress_percent, if_pos (by linarith)]
  · rw [progress_percent, if_neg (by linarith)]
  · rw [progress_percent, if_pos (by linarith)]
    have h100 : (cur - s) / (e - s) * 100 / 100 = (cur - s) / (e - s) := by
      rw [mul_div_assoc]
      norm_num
    rw [h100]
    exact ⟨div_nonneg (by linarith) (by linarith),
      (div_le_one (by linarith)).mpr (by linarith)⟩

/-- C8 witness: the amended statement instantiated at an in-range state
(cursor 50 of the span 0..100) and at a zero-width span. -/
theorem C8_witness :
    ((0 : ℚ) < 100 ∧
      progress_percent 50 0 100 = (50 - 0) / (100 - 0) * 100) ∧
    ((100 : ℚ) ≤ 100 ∧ progress_percent 7 100 100 = 100) ∧
    ((0 : ℚ) ≤ 50 ∧ (50 : ℚ) ≤ 100 ∧ (0 : ℚ) < 100 ∧
      0 ≤ progress_percent 50 0 100 / 100 ∧
      progress_percent 50 0 100 / 100 ≤ 1) := by
  refine ⟨⟨by norm_num,
    C8_amended_unclamped_coverage.1 50 0 100 (by norm_num)⟩,
    ⟨le_refl _, C8_amended_unclamped_coverage.2.1 7 100 100 (le_refl _)⟩,
    ⟨by norm_num, by norm_num, by norm_num, ?_, ?_⟩⟩
  · exact (C8_amended_unclamped_coverage.2.2 50 0 100 (by norm_num)
      (by norm_num) (by norm_num)).1
  · exact (C8_amended_unclamped_coverage.2.2 50 0 100 (by norm_num)
      (by norm_num) (by norm_num)).2

/-- C9, counterexample. When the unclamped progress exceeds 100 percent
(coverage past 1, reachable when the final page overshoots the fixed
session target), the remaining time 100 / (200 / 100) - 100 = -50 is
negative and is presented as such: nothing clamps it to zero, refuting the
never-negative part of the claim. -/
theorem C9_counterexample :
    progress_percent 200 0 100 = 200 ∧
    eta_remaining_seconds 100 200 = some (-50) ∧ (-50 : ℚ) < 0 := by
  norm_num [progress_percent, eta_remaining_seconds]

/-- C9, amended: the ETA is computed as elapsed / (progress / 100) minus
elapsed exactly when the progress value is positive and is reported as
unknown (None) otherwise — in particular at progress 0 — and the computed
remaining time is non-negative on progress values up to 100 percent, but is
not clamped: beyond 100 percent it goes negative. -/
theorem C9_amended_eta_unclamped :
    (∀ e p : ℚ, p ≤ 0 → eta_remaining_seconds e p = none) ∧
    (∀ e p : ℚ, 0 < p →
      eta_remaining_seconds e p = some (e / (p / 100) - e)) ∧
    (∀ e p : ℚ, 0 < p → p ≤ 100 → 0 ≤ e → 0 ≤ e / (p / 100) - e) := by
  refine ⟨fun e p h => ?_, fun e p h => ?_, fun e p h1 h2 h3 => ?_⟩
  · rw [eta_remaining_seconds, if_neg (not_lt.mpr h)]
  · rw [eta_remaining_seconds, if_pos h]
  · have hp : (0 : ℚ) < p / 100 := by positivity
    have he : e ≤ e / (p / 100) := by
      rw [le_div_iff₀ hp]
      calc e * (p / 100) ≤ e * 1 := by
            apply mul_le_mul_of_nonneg_left _ h3
            linarith
        _ = e := mul_one e
    linarith

/-- C9 witness: unknown ETA at progress 0; at progress 50 with elapsed 100
the remaining time is computed and non-negative. -/
theorem C9_witness :
    ((0 : ℚ) ≤ 0 ∧ eta_remaining_seconds 5 0 = none) ∧
    ((0 : ℚ) < 50 ∧
      eta_remaining_seconds 100 50 = some (100 / (50 / 100) - 100)) ∧
    ((0 : ℚ) < 50 ∧ (50 : ℚ) ≤ 100 ∧ (0 : ℚ) ≤ 100 ∧
      0 ≤ (100 : ℚ) / (50 / 100) - 100) :=
  ⟨⟨le_refl _, C9_amended_eta_unclamped.1 5 0 (le_refl _)⟩,
    ⟨by norm_num, C9_amended_eta_unclamped.2.1 100 50 (by norm_num)⟩,
    ⟨by norm_num, by norm_num, by norm_num,
      C9_amended_eta_unclamped.2.2 100 50 (by norm_num) (by norm_num)
        (by norm_num)⟩⟩

/-- C10, confirmed. Any exception while reading the latest stored timestamp
makes get_latest_timestamp return the fixed 2017 epoch — the same value an
empty store produces, so the error is indistinguishable from an empty
store and the run silently restarts from the beginning of history; and the
insert path has no uniqueness check, so a row already present in the store
is simply appended again (its count rises by one and the insert is
confirmed), re-inserting rows already stored. -/
theorem C10_read_error_restarts_from_epoch :
    (∀ store : List DbRow,
      get_latest_timestamp store true = start_timestamp) ∧
    (∀ store : List DbRow,
      get_latest_timestamp store true = get_latest_timestamp [] false) ∧
    (∀ (store : List DbRow) (r : DbRow), r ∈ store →
      (bulk_insert_data true store [r]).1.count r = store.count r + 1 ∧
      (bulk_insert_data true store [r]).2 = 1) := by
  refine ⟨fun store => rfl, fun store => rfl, fun store r hr => ⟨?_, rfl⟩⟩
  simp [bulk_insert_data]

/-- C10 witness: store0 under a failing read resumes from the epoch exactly
as the empty store does, and re-inserting its own row row0 is confirmed and
doubles the count of that row. -/
theorem C10_witness :
    get_latest_timestamp store0 true = start_timestamp ∧
    get_latest_timestamp store0 true = get_latest_timestamp [] false ∧
    row0 ∈ store0 ∧
    (bulk_insert_data true store0 [row0]).1.count row0 =
      store0.count row0 + 1 ∧
    (bulk_insert_data true store0 [row0]).2 = 1 := by
  have hm : row0 ∈ store0 := by simp [store0]
  exact ⟨C10_read_error_restarts_from_epoch.1 store0,
    C10_read_error_restarts_from_epoch.2.1 store0, hm,
    (C10_read_error_restarts_from_epoch.2.2 store0 row0 hm).1,
    (C10_read_error_restarts_from_epoch.2.2 store0 row0 hm).2⟩

end BTCImporter
